import Mathlib

/-!
Shallow embedding of `src/xml_processor.py` (functions
`parse_building_record_xml` and `process_uploaded_files`) and proofs about
the extraction and aggregation behaviour described in the specification.

Modelling conventions:
* An XML element (as produced by `xml.etree.ElementTree`) is a tag, an
  optional text (`None` for an empty element), and a list of children.
* `find` returns the first direct child with the given tag, `findall` all
  of them, in document order — as ElementTree does for a single-tag path.
* A Python dict with string keys is a `List (String × Value)` in insertion
  order (every key is assigned at most once in the code under study).
* Python values stored in a record are `Value.str`, `Value.none` (Python
  `None`) or `Value.int` (a non-negative int produced from a digit string).
* `str.isdigit` and `str.title` are modelled on their ASCII fragment.
* `ET.fromstring` is abstracted: the extractor takes a `ParseInput`, either
  an already-parsed root element or a parse failure with its message.
* Control flow of `try`/`except` is made explicit: `ExtractOutcome.returned`
  carries the returned record list and the `st.error` diagnostics emitted;
  `ExtractOutcome.raised` would be an exception escaping to the caller.
-/

/-- An ElementTree element: tag, optional text, children in document order. -/
inductive Element where
  | mk (tag : String) (text : Option String) (children : List Element)

def Element.tag : Element → String
  | .mk t _ _ => t

def Element.text : Element → Option String
  | .mk _ x _ => x

def Element.children : Element → List Element
  | .mk _ _ c => c

/-- Model of `element.find(tag)`: first direct child whose tag matches, if any. -/
def find (e : Element) (t : String) : Option Element :=
  e.children.find? (fun c => c.tag == t)

/-- Model of `element.findall(tag)`: all direct children whose tag matches, in order. -/
def findall (e : Element) (t : String) : List Element :=
  e.children.filter (fun c => c.tag == t)

/-- A value stored in an output record dict. -/
inductive Value where
  | str (s : String)
  | none
  | int (n : Nat)
deriving DecidableEq

/-- An output record: a Python dict in insertion order. -/
abbrev Rec := List (String × Value)

/-- The idiom `X.find(t).text if X.find(t) is not None else ''`:
text of the element when present (Python `None` becomes `Value.none`),
empty string when the element is absent. -/
def textOf (e : Option Element) : Value :=
  match e with
  | some el =>
    match el.text with
    | some s => .str s
    | Option.none => .none
  | Option.none => .str ""

/-- ASCII fragment of Python `str.title`: an alphabetic character is
uppercased after a non-alphabetic character (or at the start) and
lowercased otherwise; other characters are kept. -/
def pyTitleGo : List Char → Bool → List Char
  | [], _ => []
  | c :: cs, prevAlpha =>
    if c.isAlpha then
      (if prevAlpha then c.toLower else c.toUpper) :: pyTitleGo cs true
    else
      c :: pyTitleGo cs false

def pyTitle (s : String) : String :=
  String.mk (pyTitleGo s.data false)

/-- ASCII fragment of Python `str.isdigit`: nonempty and all decimal digits. -/
def pyIsDigit (s : String) : Bool :=
  !s.isEmpty && s.data.all Char.isDigit

/-- Python `int` applied to a string that passed `isdigit`. -/
def digitsToNat (s : String) : Nat :=
  s.data.foldl (fun acc c => acc * 10 + (c.toNat - 48)) 0

/-- The five file-level fields read from the `GlobalDetails` element
(lines 15-19 of the source). -/
structure Globals where
  sender_code : Value
  local_authority_code : Value
  submission_date : Value
  sender_email : Value
  sender_phone : Value
deriving DecidableEq

def readGlobals (gd : Element) : Globals where
  sender_code := textOf (find gd "SenderCode")
  local_authority_code := textOf (find gd "LocalAuthorityCode")
  submission_date := textOf (find gd "SubmissionDate")
  sender_email := textOf (find gd "SenderResponseEmailAddress")
  sender_phone := textOf (find gd "SenderResponsePhoneNo")

/-- The five global entries written into every record (lines 28-32). -/
def globalFields (g : Globals) : Rec :=
  [("sender_code", g.sender_code),
   ("local_authority_code", g.local_authority_code),
   ("submission_date", g.submission_date),
   ("sender_email", g.sender_email),
   ("sender_phone", g.sender_phone)]

/-- Entries written by the `StatusDetails` block (lines 35-37): nothing
when the subsection is absent. -/
def statusFields (br : Element) : Rec :=
  match find br "StatusDetails" with
  | some sd => [("status_type", textOf (find sd "StatusType"))]
  | Option.none => []

/-- Entries written by the `RecordDetails` block (lines 40-42). -/
def recordFields (br : Element) : Rec :=
  match find br "RecordDetails" with
  | some rd => [("record_type", textOf (find rd "RecordType"))]
  | Option.none => []

/-- Model of `county_element.text.title() if county_element is not None and
county_element.text else ''` (lines 53-54). -/
def countyValue (wa : Element) : Value :=
  match find wa "County" with
  | some c =>
    match c.text with
    | some t => if t.isEmpty then .str "" else .str (pyTitle t)
    | Option.none => .str ""
  | Option.none => .str ""

/-- Model of `uprn_text` (line 57): the UPRN element text when present and
truthy, else the empty string. -/
def uprnText (wad : Element) : String :=
  match find wad "WorkAddressUprn" with
  | some el =>
    match el.text with
    | some s => if s.isEmpty then "" else s
    | Option.none => ""
  | Option.none => ""

/-- Model of `int(uprn_text) if uprn_text.isdigit() else None` (line 58). -/
def uprnValue (wad : Element) : Value :=
  if pyIsDigit (uprnText wad) then .int (digitsToNat (uprnText wad)) else .none

/-- Entries written by the `WorkAddressDetails` block (lines 45-59): the six
address leaves only when the nested `WorkAddress` is also present; the UPRN
and property type whenever `WorkAddressDetails` is present. -/
def addressFields (br : Element) : Rec :=
  match find br "WorkAddressDetails" with
  | some wad =>
    (match find wad "WorkAddress" with
     | some wa =>
       [("number_name", textOf (find wa "NumberName")),
        ("street", textOf (find wa "Street")),
        ("locality", textOf (find wa "Locality")),
        ("town_city", textOf (find wa "TownCity")),
        ("county", countyValue wa),
        ("post_code", textOf (find wa "PostCode"))]
     | Option.none => []) ++
    [("work_address_uprn", uprnValue wad),
     ("type_of_property", textOf (find wad "TypeOfProperty"))]
  | Option.none => []

/-- Entries written by the `WorkDetails` block (lines 62-68). -/
def workFields (br : Element) : Rec :=
  match find br "WorkDetails" with
  | some wd =>
    [("sender_unique_record_id", textOf (find wd "SenderUniqueRecordIdentifier")),
     ("cp_scheme_certificate_ref", textOf (find wd "CPSchemeCertificateReference")),
     ("commissioning_required", textOf (find wd "CommissioningRequired")),
     ("commissioning_carried_out", textOf (find wd "CommissioningCarriedOut")),
     ("date_work_completed", textOf (find wd "DateWorkCompleted"))]
  | Option.none => []

/-- The `work_items` list (lines 71-76): texts of the repeated
`DescriptionOfWorkItem` children, in document order, keeping only truthy
(present, nonempty) texts; empty when the subsection is absent. -/
def workItems (br : Element) : List String :=
  match find br "WorkDescription" with
  | some wdsc =>
    (findall wdsc "DescriptionOfWorkItem").filterMap (fun item =>
      match item.text with
      | some t => if t.isEmpty then Option.none else some t
      | Option.none => Option.none)
  | Option.none => []

/-- Entries written by the `ContactInformation` block (lines 80-87). -/
def contactFields (br : Element) : Rec :=
  match find br "ContactInformation" with
  | some ci =>
    match find ci "ContactDetails" with
    | some cd =>
      [("contact_type", textOf (find cd "ContactType")),
       ("installer_registered_name", textOf (find cd "InstallerRegisteredName")),
       ("person_registration_id", textOf (find cd "PersonRegistrationIdentifier")),
       ("telephone_no", textOf (find cd "TelephoneNo"))]
    | Option.none => []
  | Option.none => []

/-- The body of the `for building_record in root.findall('BuildingRecord')`
loop (lines 24-89): one record dict, in the code's insertion order. -/
def buildRecord (g : Globals) (br : Element) : Rec :=
  globalFields g ++ statusFields br ++ recordFields br ++ addressFields br ++
    workFields br ++
    [("work_description", Value.str (String.intercalate " | " (workItems br)))] ++
    contactFields br

/-- The extractor's input: the outcome of `ET.fromstring(xml_content)`. -/
inductive ParseInput where
  | ok (root : Element)
  | parseError (msg : String)

/-- The extractor's caller-visible outcome: a returned record list together
with the `st.error` diagnostics emitted, or an exception escaping to the
caller (which the code never lets happen). -/
inductive ExtractOutcome where
  | returned (records : List Rec) (diagnostics : List String)
  | raised (msg : String)

def ExtractOutcome.records : ExtractOutcome → List Rec
  | .returned r _ => r
  | .raised _ => []

def ExtractOutcome.diags : ExtractOutcome → List String
  | .returned _ d => d
  | .raised _ => []

def ExtractOutcome.isRaised : ExtractOutcome → Bool
  | .returned _ _ => false
  | .raised _ => true

/-- Diagnostic emitted by the `except ET.ParseError` handler (line 94). -/
def parseErrorMsg (msg : String) : String :=
  "XML parsing error: " ++ msg

/-- Diagnostic emitted by the generic `except Exception` handler (line 97);
the one exception the body can raise is the `AttributeError` from calling
`.find` on a missing `GlobalDetails` (lines 14-19). -/
def genericErrorMsg : String :=
  "Error processing XML: AttributeError"

/-- Model of `parse_building_record_xml` (lines 8-98).  A parse failure is caught by
the `ParseError` handler; a `root` without a `GlobalDetails` child makes
line 15 raise `AttributeError`, caught by the generic handler; both return
`[]` after an `st.error`.  Otherwise one record per `BuildingRecord` child
is built and the list returned. -/
def parse_building_record_xml (input : ParseInput) : ExtractOutcome :=
  match input with
  | .parseError msg => .returned [] [parseErrorMsg msg]
  | .ok root =>
    match find root "GlobalDetails" with
    | Option.none => .returned [] [genericErrorMsg]
    | some gd =>
      .returned ((findall root "BuildingRecord").map (buildRecord (readGlobals gd))) []

/-- Python `str.endswith`: suffix test on the character sequences. -/
def pyEndsWith (s suffix : String) : Bool :=
  suffix.data.isSuffixOf s.data

/-- One entry of a ZIP archive: its name and the outcome of
`zip_ref.open(name).read().decode('utf-8')` followed by `ET.fromstring` —
either a decode/read failure (with the exception's message) or the decoded
text abstracted as a `ParseInput`. -/
structure ZipEntry where
  name : String
  content : Except String ParseInput

/-- One uploaded source: its name, the outcome of opening its bytes as a
ZIP archive (used when the name ends in `.zip`), and the outcome of
`read().decode('utf-8')` + `ET.fromstring` on its raw bytes (used
otherwise).  Both interpretations of the same bytes are recorded; the code
consults exactly one of them, chosen by the name's suffix. -/
structure UploadedFile where
  name : String
  asZip : Except String (List ZipEntry)
  asText : Except String ParseInput

/-- Model of `record['source_file'] = name` applied to every record of a
batch (lines 115-116 and 122-123). -/
def tagRecords (recs : List Rec) (name : String) : List Rec :=
  recs.map (fun r => r ++ [("source_file", Value.str name)])

/-- Diagnostic emitted by the per-file `except Exception` handler (line 127). -/
def fileErrorMsg (name msg : String) : String :=
  "Error processing file " ++ name ++ ": " ++ msg

/-- The `for file_name in zip_ref.namelist()` loop (lines 110-117): entries
not ending in `.xml` are skipped; a read/decode failure raises, aborting the
remaining entries (the exception is reported as the third component); records
of entries processed before the failure are kept, each list tagged with the
entry's own name. -/
def processZipEntries : List ZipEntry → List Rec × List String × Option String
  | [] => ([], [], Option.none)
  | e :: rest =>
    if pyEndsWith e.name ".xml" then
      match e.content with
      | .error msg => ([], [], some msg)
      | .ok input =>
        match parse_building_record_xml input with
        | .returned recs ds =>
          let rem := processZipEntries rest
          (tagRecords recs e.name ++ rem.1, ds ++ rem.2.1, rem.2.2)
        | .raised m => ([], [], some m)
    else
      processZipEntries rest

/-- The per-file `try` block with its `except Exception` handler
(lines 104-128): the records and diagnostics one uploaded file contributes. -/
def processFile (f : UploadedFile) : List Rec × List String :=
  if pyEndsWith f.name ".zip" then
    match f.asZip with
    | .error msg => ([], [fileErrorMsg f.name msg])
    | .ok entries =>
      let r := processZipEntries entries
      match r.2.2 with
      | some m => (r.1, r.2.1 ++ [fileErrorMsg f.name m])
      | Option.none => (r.1, r.2.1)
  else
    match f.asText with
    | .error msg => ([], [fileErrorMsg f.name msg])
    | .ok input =>
      match parse_building_record_xml input with
      | .returned recs ds => (tagRecords recs f.name, ds)
      | .raised m => ([], [fileErrorMsg f.name m])

/-- Model of `process_uploaded_files` (lines 100-134), up to the final DataFrame
conversion: the accumulated records of all sources in input order, together
with all diagnostics emitted. -/
def process_uploaded_files (files : List UploadedFile) : List Rec × List String :=
  files.foldl (fun acc f =>
    let r := processFile f
    (acc.1 ++ r.1, acc.2 ++ r.2)) ([], [])

/-! ### Concrete documents used in witnesses and counterexamples -/

/-- An empty `GlobalDetails` element. -/
def gdEmpty : Element := .mk "GlobalDetails" Option.none []

/-- A `BuildingRecord` with no subsections at all. -/
def brBare : Element := .mk "BuildingRecord" Option.none []

/-- A `BuildingRecord` with an empty `StatusDetails` subsection. -/
def brStatusOnly : Element :=
  .mk "BuildingRecord" Option.none [.mk "StatusDetails" Option.none []]

/-- A document with an empty `GlobalDetails` and one bare `BuildingRecord`. -/
def docBare : Element := .mk "Root" Option.none [gdEmpty, brBare]

/-- A document with `GlobalDetails` and zero `BuildingRecord` elements. -/
def docNoRecords : Element := .mk "Root" Option.none [gdEmpty]

/-- A document with one `BuildingRecord` but no `GlobalDetails`. -/
def docNoGlobals : Element := .mk "Root" Option.none [brBare]

/-- The record the extractor produces for `docBare`. -/
def recBare : Rec :=
  [("sender_code", .str ""), ("local_authority_code", .str ""),
   ("submission_date", .str ""), ("sender_email", .str ""),
   ("sender_phone", .str ""), ("work_description", .str "")]

/-- The all-empty globals, as read from `gdEmpty`. -/
def g0 : Globals :=
  ⟨.str "", .str "", .str "", .str "", .str ""⟩

/-- A `WorkAddressDetails` whose only child is a UPRN leaf. -/
def wadUprn (t : Option String) : Element :=
  .mk "WorkAddressDetails" Option.none [.mk "WorkAddressUprn" t []]

/-- A `BuildingRecord` containing only `wadUprn t`. -/
def brUprn (t : Option String) : Element :=
  .mk "BuildingRecord" Option.none [wadUprn t]

/-- A `BuildingRecord` whose `WorkDescription` has the three items
`"Boiler install"`, `""` (an empty element, text `None`) and
`"Flue check"`. -/
def brThreeItems : Element :=
  .mk "BuildingRecord" Option.none
    [.mk "WorkDescription" Option.none
      [.mk "DescriptionOfWorkItem" (some "Boiler install") [],
       .mk "DescriptionOfWorkItem" Option.none [],
       .mk "DescriptionOfWorkItem" (some "Flue check") []]]

/-- A `BuildingRecord` whose work address has county `"west yorkshire"`. -/
def brCounty : Element :=
  .mk "BuildingRecord" Option.none
    [.mk "WorkAddressDetails" Option.none
      [.mk "WorkAddress" Option.none
        [.mk "County" (some "west yorkshire") []]]]

/-- A plain XML source containing `docBare`. -/
def fileXmlBare : UploadedFile :=
  ⟨"records.xml", .error "not a zip", .ok (.ok docBare)⟩

/-- A ZIP entry whose decoded content parses to `docBare`. -/
def entryGood (n : String) : ZipEntry := ⟨n, .ok (.ok docBare)⟩

/-- A ZIP entry whose bytes fail to decode. -/
def entryBad (n : String) : ZipEntry := ⟨n, .error "UnicodeDecodeError"⟩

/-- An archive whose first entry is good and whose second fails to decode. -/
def zipGoodBad : UploadedFile :=
  ⟨"batch.zip", .ok [entryGood "good.xml", entryBad "bad.xml"],
   .error "binary"⟩

/-- A plain source whose bytes cannot be decoded. -/
def fileBadText : UploadedFile :=
  ⟨"broken.xml", .error "not a zip", .error "UnicodeDecodeError"⟩

/-- A source named `.zip` whose bytes are not a valid archive. -/
def fileBadZip : UploadedFile :=
  ⟨"broken.zip", .error "BadZipFile", .ok (.parseError "x")⟩

/-- A plain source holding malformed markup. -/
def fileMalformed : UploadedFile :=
  ⟨"malformed.xml", .error "not a zip", .ok (.parseError "syntax error")⟩

/-- The records one archive entry contributes when it is reachable:
the extractor's output tagged with the entry's own name. -/
def entryRecords (e : ZipEntry) : List Rec :=
  match e.content with
  | .ok input => tagRecords (parse_building_record_xml input).records e.name
  | .error _ => []

/-- The diagnostics one archive entry emits when it is reachable. -/
def entryDiags (e : ZipEntry) : List String :=
  match e.content with
  | .ok input => (parse_building_record_xml input).diags
  | .error _ => []

/-- An archive whose first entry fails to decode and whose second is good. -/
def zipBadGood : UploadedFile :=
  ⟨"batch2.zip", .ok [entryBad "bad.xml", entryGood "good.xml"],
   .error "binary"⟩

/-- An archive with two good `.xml` entries. -/
def zipAllGood : UploadedFile :=
  ⟨"batch3.zip", .ok [entryGood "a.xml", entryGood "b.xml"],
   .error "binary"⟩

/-- Keys of the global chunk. -/
def gKeys : List String :=
  ["sender_code", "local_authority_code", "submission_date",
   "sender_email", "sender_phone"]

/-- Keys of the work-address chunk. -/
def aKeys : List String :=
  ["number_name", "street", "locality", "town_city", "county", "post_code",
   "work_address_uprn", "type_of_property"]

/-- Keys of the work-details chunk. -/
def wKeys : List String :=
  ["sender_unique_record_id", "cp_scheme_certificate_ref",
   "commissioning_required", "commissioning_carried_out",
   "date_work_completed"]

/-- Keys of the contact chunk. -/
def cKeys : List String :=
  ["contact_type", "installer_registered_name", "person_registration_id",
   "telephone_no"]

/-! ### Helper lemmas about dict lookup -/

theorem lookup_eq_none_of_keys {β : Type} (k : String) (l : List (String × β))
    (h : ∀ p ∈ l, ¬ p.1 = k) : List.lookup k l = Option.none := by
  induction l with
  | nil => rfl
  | cons a t ih =>
    obtain ⟨a1, a2⟩ := a
    have h1 : (k == a1) = false :=
      beq_eq_false_iff_ne.mpr
        (fun hh => h (a1, a2) (List.mem_cons_self _ _) hh.symm)
    simpa [List.lookup, h1] using ih (fun p hp => h p (List.mem_cons_of_mem _ hp))

theorem lookup_append_right {β : Type} (k : String) (l1 l2 : List (String × β))
    (h : ∀ p ∈ l1, ¬ p.1 = k) :
    List.lookup k (l1 ++ l2) = List.lookup k l2 := by
  induction l1 with
  | nil => rfl
  | cons a t ih =>
    obtain ⟨a1, a2⟩ := a
    have h1 : (k == a1) = false :=
      beq_eq_false_iff_ne.mpr
        (fun hh => h (a1, a2) (List.mem_cons_self _ _) hh.symm)
    simpa [List.lookup, h1] using ih (fun p hp => h p (List.mem_cons_of_mem _ hp))

theorem lookup_append_left {β : Type} (k : String) (l1 l2 : List (String × β))
    (v : β) (h : List.lookup k l1 = some v) :
    List.lookup k (l1 ++ l2) = some v := by
  induction l1 with
  | nil => exact absurd h (by simp [List.lookup])
  | cons a t ih =>
    obtain ⟨a1, a2⟩ := a
    by_cases h1 : (k == a1) = true
    · simp [List.lookup, h1] at h ⊢; exact h
    · have h1f : (k == a1) = false := by revert h1; cases k == a1 <;> simp
      simp [List.lookup, h1f] at h ⊢
      exact ih h

/-- Lookup of a key foreign to a chunk skips the chunk. -/
theorem lookup_skip {β : Type} (k : String) (keys : List String)
    (l1 l2 : List (String × β)) (hl : ∀ p ∈ l1, p.1 ∈ keys) (hk : k ∉ keys) :
    List.lookup k (l1 ++ l2) = List.lookup k l2 :=
  lookup_append_right k l1 l2 (fun p hp h => hk (h ▸ hl p hp))

theorem lookup_append_or {β : Type} (k : String) (l1 l2 : List (String × β)) :
    List.lookup k (l1 ++ l2) = (List.lookup k l1).or (List.lookup k l2) := by
  induction l1 with
  | nil => simp [List.lookup]
  | cons a t ih =>
    obtain ⟨a1, a2⟩ := a
    cases h : (k == a1) <;> simp [List.lookup, h, ih, Option.or]

theorem lookup_append_of_tail_none {β : Type} (k : String)
    (l1 l2 : List (String × β)) (h : List.lookup k l2 = Option.none) :
    List.lookup k (l1 ++ l2) = List.lookup k l1 := by
  rw [lookup_append_or, h]
  cases List.lookup k l1 <;> simp [Option.or]

/-! ### Key sets of the record chunks -/

theorem globalFields_keys (g : Globals) :
    ∀ p ∈ globalFields g, p.1 ∈ gKeys := by
  intro p hp
  unfold globalFields at hp
  simp at hp
  rcases hp with h | h | h | h | h <;> simp [h, gKeys]

theorem statusFields_keys (br : Element) :
    ∀ p ∈ statusFields br, p.1 ∈ (["status_type"] : List String) := by
  intro p hp
  unfold statusFields at hp
  split at hp <;> simp at hp
  simp [hp]

theorem recordFields_keys (br : Element) :
    ∀ p ∈ recordFields br, p.1 ∈ (["record_type"] : List String) := by
  intro p hp
  unfold recordFields at hp
  split at hp <;> simp at hp
  simp [hp]

theorem addressFields_keys (br : Element) :
    ∀ p ∈ addressFields br, p.1 ∈ aKeys := by
  intro p hp
  unfold addressFields at hp
  split at hp
  · rw [List.mem_append] at hp
    rcases hp with hp | hp
    · split at hp <;> simp at hp
      rcases hp with h | h | h | h | h | h <;> simp [h, aKeys]
    · simp at hp
      rcases hp with h | h <;> simp [h, aKeys]
  · simp at hp

theorem workFields_keys (br : Element) :
    ∀ p ∈ workFields br, p.1 ∈ wKeys := by
  intro p hp
  unfold workFields at hp
  split at hp <;> simp at hp
  rcases hp with h | h | h | h | h <;> simp [h, wKeys]

theorem contactFields_keys (br : Element) :
    ∀ p ∈ contactFields br, p.1 ∈ cKeys := by
  intro p hp
  unfold contactFields at hp
  split at hp
  · split at hp <;> simp at hp
    rcases hp with h | h | h | h <;> simp [h, cKeys]
  · simp at hp

theorem singleton_keys (k : String) (v : Value) :
    ∀ p ∈ ([(k, v)] : Rec), p.1 ∈ [k] := by
  intro p hp
  simp at hp
  simp [hp]

theorem lookup_none_of_subkeys {β : Type} (k : String) (keys : List String)
    (l : List (String × β)) (hl : ∀ p ∈ l, p.1 ∈ keys) (hk : k ∉ keys) :
    List.lookup k l = Option.none :=
  lookup_eq_none_of_keys k l (fun p hp h => hk (h ▸ hl p hp))

/-! ### Which chunk of `buildRecord` decides each key -/

theorem lookup_buildRecord_global (g : Globals) (br : Element) :
    List.lookup "sender_code" (buildRecord g br) = some g.sender_code ∧
    List.lookup "local_authority_code" (buildRecord g br) =
      some g.local_authority_code ∧
    List.lookup "submission_date" (buildRecord g br) =
      some g.submission_date ∧
    List.lookup "sender_email" (buildRecord g br) = some g.sender_email ∧
    List.lookup "sender_phone" (buildRecord g br) = some g.sender_phone := by
  refine ⟨?_, ?_, ?_, ?_, ?_⟩ <;> rfl

theorem lookup_buildRecord_status (g : Globals) (br : Element) :
    List.lookup "status_type" (buildRecord g br) =
      List.lookup "status_type" (statusFields br) := by
  unfold buildRecord
  simp only [List.append_assoc]
  rw [lookup_skip _ _ _ _ (globalFields_keys g) (by decide)]
  refine lookup_append_of_tail_none _ _ _ ?_
  rw [lookup_skip _ _ _ _ (recordFields_keys br) (by decide),
      lookup_skip _ _ _ _ (addressFields_keys br) (by decide),
      lookup_skip _ _ _ _ (workFields_keys br) (by decide),
      lookup_skip _ _ _ _ (singleton_keys _ _) (by decide)]
  exact lookup_none_of_subkeys _ cKeys _ (contactFields_keys br) (by decide)

theorem lookup_buildRecord_record (g : Globals) (br : Element) :
    List.lookup "record_type" (buildRecord g br) =
      List.lookup "record_type" (recordFields br) := by
  unfold buildRecord
  simp only [List.append_assoc]
  rw [lookup_skip _ _ _ _ (globalFields_keys g) (by decide),
      lookup_skip _ _ _ _ (statusFields_keys br) (by decide)]
  refine lookup_append_of_tail_none _ _ _ ?_
  rw [lookup_skip _ _ _ _ (addressFields_keys br) (by decide),
      lookup_skip _ _ _ _ (workFields_keys br) (by decide),
      lookup_skip _ _ _ _ (singleton_keys _ _) (by decide)]
  exact lookup_none_of_subkeys _ cKeys _ (contactFields_keys br) (by decide)

theorem lookup_buildRecord_addr (k : String) (hk : k ∈ aKeys) (g : Globals)
    (br : Element) :
    List.lookup k (buildRecord g br) = List.lookup k (addressFields br) := by
  have hg : k ∉ gKeys := (by decide : ∀ x ∈ aKeys, x ∉ gKeys) k hk
  have hs : k ∉ (["status_type"] : List String) :=
    (by decide : ∀ x ∈ aKeys, x ∉ (["status_type"] : List String)) k hk
  have hr : k ∉ (["record_type"] : List String) :=
    (by decide : ∀ x ∈ aKeys, x ∉ (["record_type"] : List String)) k hk
  have hw : k ∉ wKeys := (by decide : ∀ x ∈ aKeys, x ∉ wKeys) k hk
  have hd : k ∉ (["work_description"] : List String) :=
    (by decide : ∀ x ∈ aKeys, x ∉ (["work_description"] : List String)) k hk
  have hc : k ∉ cKeys := (by decide : ∀ x ∈ aKeys, x ∉ cKeys) k hk
  unfold buildRecord
  simp only [List.append_assoc]
  rw [lookup_skip _ _ _ _ (globalFields_keys g) hg,
      lookup_skip _ _ _ _ (statusFields_keys br) hs,
      lookup_skip _ _ _ _ (recordFields_keys br) hr]
  refine lookup_append_of_tail_none _ _ _ ?_
  rw [lookup_skip _ _ _ _ (workFields_keys br) hw,
      lookup_skip _ _ _ _ (singleton_keys _ _) hd]
  exact lookup_none_of_subkeys _ cKeys _ (contactFields_keys br) hc

theorem lookup_buildRecord_work (k : String) (hk : k ∈ wKeys) (g : Globals)
    (br : Element) :
    List.lookup k (buildRecord g br) = List.lookup k (workFields br) := by
  have hg : k ∉ gKeys := (by decide : ∀ x ∈ wKeys, x ∉ gKeys) k hk
  have hs : k ∉ (["status_type"] : List String) :=
    (by decide : ∀ x ∈ wKeys, x ∉ (["status_type"] : List String)) k hk
  have hr : k ∉ (["record_type"] : List String) :=
    (by decide : ∀ x ∈ wKeys, x ∉ (["record_type"] : List String)) k hk
  have ha : k ∉ aKeys := (by decide : ∀ x ∈ wKeys, x ∉ aKeys) k hk
  have hd : k ∉ (["work_description"] : List String) :=
    (by decide : ∀ x ∈ wKeys, x ∉ (["work_description"] : List String)) k hk
  have hc : k ∉ cKeys := (by decide : ∀ x ∈ wKeys, x ∉ cKeys) k hk
  unfold buildRecord
  simp only [List.append_assoc]
  rw [lookup_skip _ _ _ _ (globalFields_keys g) hg,
      lookup_skip _ _ _ _ (statusFields_keys br) hs,
      lookup_skip _ _ _ _ (recordFields_keys br) hr,
      lookup_skip _ _ _ _ (addressFields_keys br) ha]
  refine lookup_append_of_tail_none _ _ _ ?_
  rw [lookup_skip _ _ _ _ (singleton_keys _ _) hd]
  exact lookup_none_of_subkeys _ cKeys _ (contactFields_keys br) hc

theorem lookup_buildRecord_wd (g : Globals) (br : Element) :
    List.lookup "work_description" (buildRecord g br) =
      some (Value.str (String.intercalate " | " (workItems br))) := by
  unfold buildRecord
  simp only [List.append_assoc]
  rw [lookup_skip _ _ _ _ (globalFields_keys g) (by decide),
      lookup_skip _ _ _ _ (statusFields_keys br) (by decide),
      lookup_skip _ _ _ _ (recordFields_keys br) (by decide),
      lookup_skip _ _ _ _ (addressFields_keys br) (by decide),
      lookup_skip _ _ _ _ (workFields_keys br) (by decide)]
  rfl

theorem lookup_buildRecord_contact (k : String) (hk : k ∈ cKeys) (g : Globals)
    (br : Element) :
    List.lookup k (buildRecord g br) = List.lookup k (contactFields br) := by
  have hg : k ∉ gKeys := (by decide : ∀ x ∈ cKeys, x ∉ gKeys) k hk
  have hs : k ∉ (["status_type"] : List String) :=
    (by decide : ∀ x ∈ cKeys, x ∉ (["status_type"] : List String)) k hk
  have hr : k ∉ (["record_type"] : List String) :=
    (by decide : ∀ x ∈ cKeys, x ∉ (["record_type"] : List String)) k hk
  have ha : k ∉ aKeys := (by decide : ∀ x ∈ cKeys, x ∉ aKeys) k hk
  have hw : k ∉ wKeys := (by decide : ∀ x ∈ cKeys, x ∉ wKeys) k hk
  have hd : k ∉ (["work_description"] : List String) :=
    (by decide : ∀ x ∈ cKeys, x ∉ (["work_description"] : List String)) k hk
  unfold buildRecord
  simp only [List.append_assoc]
  rw [lookup_skip _ _ _ _ (globalFields_keys g) hg,
      lookup_skip _ _ _ _ (statusFields_keys br) hs,
      lookup_skip _ _ _ _ (recordFields_keys br) hr,
      lookup_skip _ _ _ _ (addressFields_keys br) ha,
      lookup_skip _ _ _ _ (workFields_keys br) hw,
      lookup_skip _ _ _ _ (singleton_keys _ _) hd]

/-! ### Evaluation of the chunks under presence/absence hypotheses -/

theorem statusFields_of_none (br : Element)
    (h : find br "StatusDetails" = Option.none) : statusFields br = [] := by
  unfold statusFields; rw [h]

theorem statusFields_of_some (br sd : Element)
    (h : find br "StatusDetails" = some sd) :
    statusFields br = [("status_type", textOf (find sd "StatusType"))] := by
  unfold statusFields; rw [h]

theorem recordFields_of_none (br : Element)
    (h : find br "RecordDetails" = Option.none) : recordFields br = [] := by
  unfold recordFields; rw [h]

theorem recordFields_of_some (br rd : Element)
    (h : find br "RecordDetails" = some rd) :
    recordFields br = [("record_type", textOf (find rd "RecordType"))] := by
  unfold recordFields; rw [h]

theorem addressFields_of_none (br : Element)
    (h : find br "WorkAddressDetails" = Option.none) : addressFields br = [] := by
  unfold addressFields; rw [h]

theorem addressFields_of_some_none (br wad : Element)
    (h : find br "WorkAddressDetails" = some wad)
    (h2 : find wad "WorkAddress" = Option.none) :
    addressFields br =
      [("work_address_uprn", uprnValue wad),
       ("type_of_property", textOf (find wad "TypeOfProperty"))] := by
  unfold addressFields; simp only [h, h2]; rfl

theorem addressFields_of_some_some (br wad wa : Element)
    (h : find br "WorkAddressDetails" = some wad)
    (h2 : find wad "WorkAddress" = some wa) :
    addressFields br =
      [("number_name", textOf (find wa "NumberName")),
       ("street", textOf (find wa "Street")),
       ("locality", textOf (find wa "Locality")),
       ("town_city", textOf (find wa "TownCity")),
       ("county", countyValue wa),
       ("post_code", textOf (find wa "PostCode")),
       ("work_address_uprn", uprnValue wad),
       ("type_of_property", textOf (find wad "TypeOfProperty"))] := by
  unfold addressFields; simp only [h, h2]; rfl

theorem workFields_of_none (br : Element)
    (h : find br "WorkDetails" = Option.none) : workFields br = [] := by
  unfold workFields; rw [h]

theorem workFields_of_some (br wd : Element)
    (h : find br "WorkDetails" = some wd) :
    workFields br =
      [("sender_unique_record_id",
        textOf (find wd "SenderUniqueRecordIdentifier")),
       ("cp_scheme_certificate_ref",
        textOf (find wd "CPSchemeCertificateReference")),
       ("commissioning_required", textOf (find wd "CommissioningRequired")),
       ("commissioning_carried_out", textOf (find wd "CommissioningCarriedOut")),
       ("date_work_completed", textOf (find wd "DateWorkCompleted"))] := by
  unfold workFields; rw [h]

theorem contactFields_of_none (br : Element)
    (h : find br "ContactInformation" = Option.none) : contactFields br = [] := by
  unfold contactFields; rw [h]

theorem contactFields_of_some_some (br ci cd : Element)
    (h : find br "ContactInformation" = some ci)
    (h2 : find ci "ContactDetails" = some cd) :
    contactFields br =
      [("contact_type", textOf (find cd "ContactType")),
       ("installer_registered_name",
        textOf (find cd "InstallerRegisteredName")),
       ("person_registration_id",
        textOf (find cd "PersonRegistrationIdentifier")),
       ("telephone_no", textOf (find cd "TelephoneNo"))] := by
  unfold contactFields; simp only [h, h2]

/-- The record list produced for a root whose `GlobalDetails` is present. -/
theorem parse_ok_of_globals (root gd : Element)
    (h : find root "GlobalDetails" = some gd) :
    parse_building_record_xml (.ok root) =
      .returned
        ((findall root "BuildingRecord").map (buildRecord (readGlobals gd)))
        [] := by
  unfold parse_building_record_xml; simp only [h]

/-! ### Claim C2 -/

/-- Claim C2 as stated is false: on malformed input no `ParseError` (nor any
exception) is delivered to the caller of `parse_building_record_xml`; the
handler at lines 93-95 swallows it. -/
theorem C2_counterexample :
    (parse_building_record_xml
      (.parseError "syntax error: line 1, column 0")).isRaised = false := by
  rfl

/-- Claim C2 (amended): for every input that is not well-formed markup, the
extractor catches the `ParseError`, surfaces the underlying diagnostic
message through the UI error channel, and returns an empty record list to
the caller; no exception reaches the caller. -/
theorem C2_theorem (msg : String) :
    parse_building_record_xml (.parseError msg) =
      .returned [] [parseErrorMsg msg] := by
  rfl

/-! ### Claim C9 -/

/-- Claim C9: the extractor is total — no input makes it deliver an
exception; the parse-error path and the missing-`GlobalDetails` traversal
error path both return the empty list, so by the returned record list alone
a malformed document is indistinguishable from a well-formed document with
zero `BuildingRecord` elements. -/
theorem C9_theorem :
    (∀ input, (parse_building_record_xml input).isRaised = false) ∧
    (∀ msg, (parse_building_record_xml (.parseError msg)).records = []) ∧
    (∀ root, find root "GlobalDetails" = Option.none →
      (parse_building_record_xml (.ok root)).records = []) ∧
    (parse_building_record_xml (.ok docNoRecords)).records = [] ∧
    (parse_building_record_xml (.parseError "junk")).records =
      (parse_building_record_xml (.ok docNoRecords)).records := by
  refine ⟨?_, ?_, ?_, rfl, rfl⟩
  · intro input
    cases input with
    | parseError msg => rfl
    | ok root =>
      simp only [parse_building_record_xml]
      cases find root "GlobalDetails" <;> rfl
  · intro msg; rfl
  · intro root h
    simp only [parse_building_record_xml, h]
    rfl

/-- Claim C9 witness: the traversal-error conjunct at a concrete document. -/
theorem C9_witness :
    (parse_building_record_xml (.ok docNoGlobals)).records = [] :=
  C9_theorem.2.2.1 docNoGlobals rfl

/-! ### Claim C3 -/

/-- Claim C3 as stated is false: for a document whose `GlobalDetails`
section is absent, line 15 raises `AttributeError`, the generic handler
returns `[]`, and no record is produced even though the document has one
`BuildingRecord` element. -/
theorem C3_counterexample :
    parse_building_record_xml (.ok docNoGlobals) =
      .returned [] [genericErrorMsg] ∧
    (findall docNoGlobals "BuildingRecord").length = 1 := by
  exact ⟨rfl, rfl⟩

/-- Claim C3 (amended): when the `GlobalDetails` section is present, each of
its five scalar fields that is absent is rendered as the empty string in
every record, nothing is raised, and one record per `BuildingRecord` element
is produced; when the section itself is absent the internal `AttributeError`
is caught and the extractor returns an empty list with a diagnostic. -/
theorem C3_theorem (root : Element) :
    (∀ gd, find root "GlobalDetails" = some gd →
      (parse_building_record_xml (.ok root)).isRaised = false ∧
      (parse_building_record_xml (.ok root)).records.length =
        (findall root "BuildingRecord").length ∧
      (find gd "SenderCode" = Option.none →
        ∀ r ∈ (parse_building_record_xml (.ok root)).records,
          List.lookup "sender_code" r = some (Value.str "")) ∧
      (find gd "LocalAuthorityCode" = Option.none →
        ∀ r ∈ (parse_building_record_xml (.ok root)).records,
          List.lookup "local_authority_code" r = some (Value.str "")) ∧
      (find gd "SubmissionDate" = Option.none →
        ∀ r ∈ (parse_building_record_xml (.ok root)).records,
          List.lookup "submission_date" r = some (Value.str "")) ∧
      (find gd "SenderResponseEmailAddress" = Option.none →
        ∀ r ∈ (parse_building_record_xml (.ok root)).records,
          List.lookup "sender_email" r = some (Value.str "")) ∧
      (find gd "SenderResponsePhoneNo" = Option.none →
        ∀ r ∈ (parse_building_record_xml (.ok root)).records,
          List.lookup "sender_phone" r = some (Value.str ""))) ∧
    (find root "GlobalDetails" = Option.none →
      parse_building_record_xml (.ok root) =
        .returned [] [genericErrorMsg]) := by
  constructor
  · intro gd hgd
    rw [parse_ok_of_globals root gd hgd]
    refine ⟨rfl, by simp [ExtractOutcome.records], ?_, ?_, ?_, ?_, ?_⟩ <;>
      intro h r hr <;>
      simp only [ExtractOutcome.records, List.mem_map] at hr <;>
      obtain ⟨br, hbr, rfl⟩ := hr
    · rw [(lookup_buildRecord_global (readGlobals gd) br).1]
      simp [readGlobals, h, textOf]
    · rw [(lookup_buildRecord_global (readGlobals gd) br).2.1]
      simp [readGlobals, h, textOf]
    · rw [(lookup_buildRecord_global (readGlobals gd) br).2.2.1]
      simp [readGlobals, h, textOf]
    · rw [(lookup_buildRecord_global (readGlobals gd) br).2.2.2.1]
      simp [readGlobals, h, textOf]
    · rw [(lookup_buildRecord_global (readGlobals gd) br).2.2.2.2]
      simp [readGlobals, h, textOf]
  · intro h
    simp only [parse_building_record_xml, h]

/-- Claim C3 witness: both branches of the amended claim at concrete
documents. -/
theorem C3_witness :
    (parse_building_record_xml (.ok docBare)).isRaised = false ∧
    (parse_building_record_xml (.ok docBare)).records.length = 1 ∧
    parse_building_record_xml (.ok docNoGlobals) =
      .returned [] [genericErrorMsg] := by
  refine ⟨((C3_theorem docBare).1 gdEmpty rfl).1, ?_,
    (C3_theorem docNoGlobals).2 rfl⟩
  rw [((C3_theorem docBare).1 gdEmpty rfl).2.1]
  rfl

/-! ### Claim C1 -/

/-- Claim C1 as stated is false: for a well-formed document with one
`BuildingRecord` that has no subsections, the produced record has only the
five global keys and `work_description`; the leaves of the absent
subsections (`status_type`, `record_type`, `number_name`,
`work_address_uprn`, ...) are missing keys, not empty strings. -/
theorem C1_counterexample :
    parse_building_record_xml (.ok docBare) = .returned [recBare] [] ∧
    List.lookup "status_type" recBare = Option.none ∧
    List.lookup "record_type" recBare = Option.none ∧
    List.lookup "number_name" recBare = Option.none ∧
    List.lookup "work_address_uprn" recBare = Option.none := by
  exact ⟨rfl, rfl, rfl, rfl, rfl⟩

/-- Claim C1 (amended): every record always carries the five global fields
and `work_description`; a leaf read from a subsection is rendered as the
empty string when the leaf is absent but its enclosing subsection(s) are
present; when a governing subsection is absent, the corresponding keys are
omitted from the record altogether (and `work_address_uprn`, present exactly
when `WorkAddressDetails` is, is integer-or-null). -/
theorem C1_theorem (g : Globals) (br : Element) :
    (find br "StatusDetails" = Option.none →
      List.lookup "status_type" (buildRecord g br) = Option.none) ∧
    (∀ sd, find br "StatusDetails" = some sd →
      find sd "StatusType" = Option.none →
      List.lookup "status_type" (buildRecord g br) = some (Value.str "")) ∧
    (find br "RecordDetails" = Option.none →
      List.lookup "record_type" (buildRecord g br) = Option.none) ∧
    (∀ rd, find br "RecordDetails" = some rd →
      find rd "RecordType" = Option.none →
      List.lookup "record_type" (buildRecord g br) = some (Value.str "")) ∧
    (find br "WorkAddressDetails" = Option.none →
      List.lookup "number_name" (buildRecord g br) = Option.none ∧
      List.lookup "county" (buildRecord g br) = Option.none ∧
      List.lookup "work_address_uprn" (buildRecord g br) = Option.none ∧
      List.lookup "type_of_property" (buildRecord g br) = Option.none) ∧
    (∀ wad, find br "WorkAddressDetails" = some wad →
      (find wad "WorkAddress" = Option.none →
        List.lookup "number_name" (buildRecord g br) = Option.none) ∧
      (∀ wa, find wad "WorkAddress" = some wa →
        find wa "NumberName" = Option.none →
        List.lookup "number_name" (buildRecord g br) = some (Value.str "")) ∧
      List.lookup "work_address_uprn" (buildRecord g br) =
        some (uprnValue wad) ∧
      (find wad "TypeOfProperty" = Option.none →
        List.lookup "type_of_property" (buildRecord g br) =
          some (Value.str ""))) ∧
    (find br "WorkDetails" = Option.none →
      List.lookup "sender_unique_record_id" (buildRecord g br) =
        Option.none) ∧
    (∀ wd, find br "WorkDetails" = some wd →
      find wd "SenderUniqueRecordIdentifier" = Option.none →
      List.lookup "sender_unique_record_id" (buildRecord g br) =
        some (Value.str "")) ∧
    (find br "ContactInformation" = Option.none →
      List.lookup "contact_type" (buildRecord g br) = Option.none) ∧
    (∃ s, List.lookup "work_description" (buildRecord g br) =
      some (Value.str s)) ∧
    List.lookup "sender_code" (buildRecord g br) = some g.sender_code := by
  refine ⟨?_, ?_, ?_, ?_, ?_, ?_, ?_, ?_, ?_, ?_, ?_⟩
  · intro h
    rw [lookup_buildRecord_status, statusFields_of_none br h]
    rfl
  · intro sd h h2
    rw [lookup_buildRecord_status, statusFields_of_some br sd h, h2]
    rfl
  · intro h
    rw [lookup_buildRecord_record, recordFields_of_none br h]
    rfl
  · intro rd h h2
    rw [lookup_buildRecord_record, recordFields_of_some br rd h, h2]
    rfl
  · intro h
    refine ⟨?_, ?_, ?_, ?_⟩
    · rw [lookup_buildRecord_addr "number_name" (by decide),
          addressFields_of_none br h]
      rfl
    · rw [lookup_buildRecord_addr "county" (by decide),
          addressFields_of_none br h]
      rfl
    · rw [lookup_buildRecord_addr "work_address_uprn" (by decide),
          addressFields_of_none br h]
      rfl
    · rw [lookup_buildRecord_addr "type_of_property" (by decide),
          addressFields_of_none br h]
      rfl
  · intro wad h
    refine ⟨?_, ?_, ?_, ?_⟩
    · intro h2
      rw [lookup_buildRecord_addr "number_name" (by decide),
          addressFields_of_some_none br wad h h2]
      rfl
    · intro wa h2 h3
      rw [lookup_buildRecord_addr "number_name" (by decide),
          addressFields_of_some_some br wad wa h h2, h3]
      rfl
    · cases h2 : find wad "WorkAddress" with
      | none =>
        rw [lookup_buildRecord_addr "work_address_uprn" (by decide),
            addressFields_of_some_none br wad h h2]
        rfl
      | some wa =>
        rw [lookup_buildRecord_addr "work_address_uprn" (by decide),
            addressFields_of_some_some br wad wa h h2]
        rfl
    · intro h3
      cases h2 : find wad "WorkAddress" with
      | none =>
        rw [lookup_buildRecord_addr "type_of_property" (by decide),
            addressFields_of_some_none br wad h h2, h3]
        rfl
      | some wa =>
        rw [lookup_buildRecord_addr "type_of_property" (by decide),
            addressFields_of_some_some br wad wa h h2, h3]
        rfl
  · intro h
    rw [lookup_buildRecord_work "sender_unique_record_id" (by decide),
        workFields_of_none br h]
    rfl
  · intro wd h h2
    rw [lookup_buildRecord_work "sender_unique_record_id" (by decide),
        workFields_of_some br wd h, h2]
    rfl
  · intro h
    rw [lookup_buildRecord_contact "contact_type" (by decide),
        contactFields_of_none br h]
    rfl
  · exact ⟨_, lookup_buildRecord_wd g br⟩
  · exact (lookup_buildRecord_global g br).1

/-- Claim C1 witness: an absent subsection omits its key and a present
subsection with an absent leaf yields the empty string, at concrete
building records. -/
theorem C1_witness :
    List.lookup "status_type" (buildRecord g0 brBare) = Option.none ∧
    List.lookup "status_type" (buildRecord g0 brStatusOnly) =
      some (Value.str "") := by
  refine ⟨(C1_theorem g0 brBare).1 rfl, ?_⟩
  exact (C1_theorem g0 brStatusOnly).2.1
    (.mk "StatusDetails" Option.none []) rfl rfl

/-! ### Helpers shared by the field-value claims -/

theorem lookup_uprn (g : Globals) (br wad : Element)
    (h : find br "WorkAddressDetails" = some wad) :
    List.lookup "work_address_uprn" (buildRecord g br) =
      some (uprnValue wad) := by
  cases h2 : find wad "WorkAddress" with
  | none =>
    rw [lookup_buildRecord_addr "work_address_uprn" (by decide),
        addressFields_of_some_none br wad h h2]
    rfl
  | some wa =>
    rw [lookup_buildRecord_addr "work_address_uprn" (by decide),
        addressFields_of_some_some br wad wa h h2]
    rfl

theorem lookup_county (g : Globals) (br wad wa : Element)
    (h : find br "WorkAddressDetails" = some wad)
    (h2 : find wad "WorkAddress" = some wa) :
    List.lookup "county" (buildRecord g br) = some (countyValue wa) := by
  rw [lookup_buildRecord_addr "county" (by decide),
      addressFields_of_some_some br wad wa h h2]
  rfl

theorem parse_eq_returned (input : ParseInput) :
    parse_building_record_xml input =
      .returned (parse_building_record_xml input).records
        (parse_building_record_xml input).diags := by
  cases input with
  | parseError msg => rfl
  | ok root =>
    simp only [parse_building_record_xml]
    cases find root "GlobalDetails" <;> rfl

/-! ### Claim C5 -/

/-- Claim C5: whenever `WorkAddressDetails` is present, `work_address_uprn`
is the integer value of the UPRN element's digit text, and Python `None`
when the element is absent, its text is `None` or empty, or the text is not
all digits; it is never a string value and its computation never fails. -/
theorem C5_theorem (g : Globals) (br wad : Element)
    (h : find br "WorkAddressDetails" = some wad) :
    (List.lookup "work_address_uprn" (buildRecord g br) = some Value.none ∨
      ∃ n, List.lookup "work_address_uprn" (buildRecord g br) =
        some (Value.int n)) ∧
    (∀ el t, find wad "WorkAddressUprn" = some el → el.text = some t →
      pyIsDigit t = true →
      List.lookup "work_address_uprn" (buildRecord g br) =
        some (Value.int (digitsToNat t))) ∧
    (find wad "WorkAddressUprn" = Option.none →
      List.lookup "work_address_uprn" (buildRecord g br) =
        some Value.none) ∧
    (∀ el, find wad "WorkAddressUprn" = some el → el.text = Option.none →
      List.lookup "work_address_uprn" (buildRecord g br) =
        some Value.none) ∧
    (∀ el t, find wad "WorkAddressUprn" = some el → el.text = some t →
      pyIsDigit t = false →
      List.lookup "work_address_uprn" (buildRecord g br) =
        some Value.none) := by
  have key := lookup_uprn g br wad h
  refine ⟨?_, ?_, ?_, ?_, ?_⟩
  · rw [key]
    unfold uprnValue
    cases hd : pyIsDigit (uprnText wad) with
    | false => simp
    | true => exact Or.inr ⟨digitsToNat (uprnText wad), by simp⟩
  · intro el t hel ht hd
    rw [key]
    have hne : t.isEmpty = false := by
      have := (Bool.and_eq_true _ _).mp hd
      simpa using this.1
    unfold uprnValue uprnText
    simp only [hel, ht]
    simp [hne, hd]
  · intro hel
    rw [key]
    unfold uprnValue uprnText
    rw [hel]
    rfl
  · intro el hel ht
    rw [key]
    unfold uprnValue uprnText
    simp only [hel, ht]
    rfl
  · intro el t hel ht hd
    rw [key]
    unfold uprnValue uprnText
    simp only [hel, ht]
    cases hne : t.isEmpty with
    | true => simp [hne]; rfl
    | false => simp [hne, hd]

/-- Claim C5 witness: the UPRN round-trip at concrete records. -/
theorem C5_witness :
    List.lookup "work_address_uprn" (buildRecord g0 (brUprn (some "12345"))) =
      some (Value.int 12345) ∧
    List.lookup "work_address_uprn" (buildRecord g0 (brUprn (some "0"))) =
      some (Value.int 0) ∧
    List.lookup "work_address_uprn" (buildRecord g0 (brUprn (some "12a"))) =
      some Value.none ∧
    List.lookup "work_address_uprn" (buildRecord g0 (brUprn Option.none)) =
      some Value.none := by
  refine ⟨?_, ?_, ?_, ?_⟩
  · exact ((C5_theorem g0 (brUprn (some "12345")) (wadUprn (some "12345"))
      rfl).2.1 (.mk "WorkAddressUprn" (some "12345") []) "12345" rfl rfl
      (by decide)).trans (by rfl)
  · exact ((C5_theorem g0 (brUprn (some "0")) (wadUprn (some "0"))
      rfl).2.1 (.mk "WorkAddressUprn" (some "0") []) "0" rfl rfl
      (by decide)).trans (by rfl)
  · exact (C5_theorem g0 (brUprn (some "12a")) (wadUprn (some "12a"))
      rfl).2.2.2.2 (.mk "WorkAddressUprn" (some "12a") []) "12a" rfl rfl
      (by decide)
  · exact (C5_theorem g0 (brUprn Option.none) (wadUprn Option.none)
      rfl).2.2.2.1 (.mk "WorkAddressUprn" Option.none []) rfl rfl

/-! ### Claim C7 -/

/-- Claim C7: `work_description` is always present and equals the
`" | "`-join of the kept work items; the kept items are exactly the texts
of the `DescriptionOfWorkItem` children, in document order, with absent or
empty texts filtered out before joining; with no subsection there are no
items, and the concrete three-item example joins as the spec states. -/
theorem C7_theorem (g : Globals) (br : Element) :
    List.lookup "work_description" (buildRecord g br) =
      some (Value.str (String.intercalate " | " (workItems br))) ∧
    workItems br =
      (match find br "WorkDescription" with
       | some w =>
         (((findall w "DescriptionOfWorkItem").map
            Element.text).filterMap id).filter (fun t => !t.isEmpty)
       | Option.none => []) ∧
    List.lookup "work_description" (buildRecord g0 brThreeItems) =
      some (Value.str "Boiler install | Flue check") ∧
    List.lookup "work_description" (buildRecord g0 brBare) =
      some (Value.str "") := by
  refine ⟨lookup_buildRecord_wd g br, ?_, ?_, ?_⟩
  · unfold workItems
    cases find br "WorkDescription" with
    | none => rfl
    | some w =>
      dsimp only
      generalize findall w "DescriptionOfWorkItem" = l
      induction l with
      | nil => rfl
      | cons a t ih =>
        cases ha : a.text with
        | none => simpa [List.filterMap_cons, ha] using ih
        | some s =>
          cases hs : s.isEmpty with
          | true => simpa [List.filterMap_cons, ha, hs] using ih
          | false => simpa [List.filterMap_cons, ha, hs] using ih
  · exact (lookup_buildRecord_wd g0 brThreeItems).trans (by rfl)
  · exact (lookup_buildRecord_wd g0 brBare).trans (by rfl)

/-! ### Claim C8 -/

/-- Claim C8: when the county element is present with non-empty text inside
a present `WorkAddress`, the stored county is the text's title-casing (each
word's first letter uppercased, the rest lowercased, as Python `str.title`
does); an absent county, a county with `None` text, or one with empty text
yields the empty string; and `"west yorkshire"` titles to
`"West Yorkshire"`. -/
theorem C8_theorem (g : Globals) (br wad wa : Element)
    (h : find br "WorkAddressDetails" = some wad)
    (h2 : find wad "WorkAddress" = some wa) :
    (∀ c t, find wa "County" = some c → c.text = some t →
      t.isEmpty = false →
      List.lookup "county" (buildRecord g br) =
        some (Value.str (pyTitle t))) ∧
    (find wa "County" = Option.none →
      List.lookup "county" (buildRecord g br) = some (Value.str "")) ∧
    (∀ c, find wa "County" = some c → c.text = Option.none →
      List.lookup "county" (buildRecord g br) = some (Value.str "")) ∧
    (∀ c, find wa "County" = some c → c.text = some "" →
      List.lookup "county" (buildRecord g br) = some (Value.str "")) ∧
    pyTitle "west yorkshire" = "West Yorkshire" := by
  have key := lookup_county g br wad wa h h2
  refine ⟨?_, ?_, ?_, ?_, by rfl⟩
  · intro c t hc ht hne
    rw [key]
    unfold countyValue
    simp only [hc, ht]
    simp [hne]
  · intro hc
    rw [key]
    unfold countyValue
    rw [hc]
  · intro c hc ht
    rw [key]
    unfold countyValue
    simp only [hc, ht]
  · intro c hc ht
    rw [key]
    unfold countyValue
    simp only [hc, ht]
    rfl

/-- Claim C8 witness: the concrete county round-trip. -/
theorem C8_witness :
    List.lookup "county" (buildRecord g0 brCounty) =
      some (Value.str "West Yorkshire") := by
  have := (C8_theorem g0 brCounty
    (.mk "WorkAddressDetails" Option.none
      [.mk "WorkAddress" Option.none
        [.mk "County" (some "west yorkshire") []]])
    (.mk "WorkAddress" Option.none
      [.mk "County" (some "west yorkshire") []]) rfl rfl).1
    (.mk "County" (some "west yorkshire") []) "west yorkshire" rfl rfl rfl
  exact this.trans (by rfl)

/-! ### Helpers for the aggregator claims -/

theorem foldl_accum (files : List UploadedFile)
    (acc : List Rec × List String) :
    files.foldl (fun acc f =>
        let r := processFile f
        (acc.1 ++ r.1, acc.2 ++ r.2)) acc =
      (acc.1 ++ (files.map (fun f => (processFile f).1)).flatten,
       acc.2 ++ (files.map (fun f => (processFile f).2)).flatten) := by
  induction files generalizing acc with
  | nil => simp
  | cons f t ih => simp [ih, List.append_assoc]

/-- The aggregator output is the per-file contributions, concatenated in
input order. -/
theorem process_uploaded_files_eq (files : List UploadedFile) :
    process_uploaded_files files =
      ((files.map (fun f => (processFile f).1)).flatten,
       (files.map (fun f => (processFile f).2)).flatten) := by
  unfold process_uploaded_files
  simpa using foldl_accum files ([], [])

theorem mem_tagRecords (recs : List Rec) (n : String) (r : Rec)
    (h : r ∈ tagRecords recs n) :
    ∃ r0, r = r0 ++ [("source_file", Value.str n)] := by
  unfold tagRecords at h
  obtain ⟨r0, _, rfl⟩ := List.mem_map.1 h
  exact ⟨r0, rfl⟩

theorem mem_processZipEntries (r : Rec) :
    ∀ entries, r ∈ (processZipEntries entries).1 →
      ∃ r0 n, r = r0 ++ [("source_file", Value.str n)] := by
  intro entries
  induction entries with
  | nil => intro h; simp [processZipEntries] at h
  | cons e t ih =>
    intro h
    rw [processZipEntries] at h
    split at h
    · split at h
      · simp at h
      · split at h
        · rw [List.mem_append] at h
          rcases h with h | h
          · obtain ⟨r0, hr⟩ := mem_tagRecords _ _ _ h
            exact ⟨r0, e.name, hr⟩
          · exact ih h
        · simp at h
    · exact ih h

theorem mem_processFile (f : UploadedFile) (r : Rec)
    (h : r ∈ (processFile f).1) :
    ∃ r0 n, r = r0 ++ [("source_file", Value.str n)] := by
  unfold processFile at h
  by_cases hz : pyEndsWith f.name ".zip" = true
  · rw [if_pos hz] at h
    cases hze : f.asZip with
    | error m => simp only [hze] at h; simp at h
    | ok entries =>
      simp only [hze] at h
      have hsel :
          (match (processZipEntries entries).2.2 with
            | some m =>
              ((processZipEntries entries).1,
               (processZipEntries entries).2.1 ++ [fileErrorMsg f.name m])
            | Option.none =>
              ((processZipEntries entries).1,
               (processZipEntries entries).2.1)).1 =
            (processZipEntries entries).1 := by
        cases (processZipEntries entries).2.2 <;> rfl
      rw [hsel] at h
      exact mem_processZipEntries r entries h
  · rw [if_neg hz] at h
    cases hxt : f.asText with
    | error m => simp only [hxt] at h; simp at h
    | ok input =>
      simp only [hxt] at h
      cases hp : parse_building_record_xml input with
      | returned recs ds =>
        simp only [hp] at h
        obtain ⟨r0, hr⟩ := mem_tagRecords _ _ _ h
        exact ⟨r0, f.name, hr⟩
      | raised m => simp only [hp] at h; simp at h

/-! ### Claim C10 -/

/-- Claim C10: every record of a successfully parsed document carries the
five global fields, with the very value read from the document's
`GlobalDetails` (hence identical across the document's records), and a
`work_description` key; and every record the aggregator returns ends with a
`source_file` entry added by the aggregator. -/
theorem C10_theorem :
    (∀ root gd, find root "GlobalDetails" = some gd →
      ∀ r ∈ (parse_building_record_xml (.ok root)).records,
        List.lookup "sender_code" r = some (readGlobals gd).sender_code ∧
        List.lookup "local_authority_code" r =
          some (readGlobals gd).local_authority_code ∧
        List.lookup "submission_date" r =
          some (readGlobals gd).submission_date ∧
        List.lookup "sender_email" r = some (readGlobals gd).sender_email ∧
        List.lookup "sender_phone" r = some (readGlobals gd).sender_phone ∧
        ∃ s, List.lookup "work_description" r = some (Value.str s)) ∧
    (∀ files r, r ∈ (process_uploaded_files files).1 →
      ∃ r0 n, r = r0 ++ [("source_file", Value.str n)]) := by
  constructor
  · intro root gd hgd r hr
    rw [parse_ok_of_globals root gd hgd] at hr
    simp only [ExtractOutcome.records, List.mem_map] at hr
    obtain ⟨br, _, rfl⟩ := hr
    obtain ⟨h1, h2, h3, h4, h5⟩ := lookup_buildRecord_global (readGlobals gd) br
    exact ⟨h1, h2, h3, h4, h5, _, lookup_buildRecord_wd (readGlobals gd) br⟩
  · intro files r hr
    rw [process_uploaded_files_eq files] at hr
    simp only [List.mem_flatten, List.mem_map] at hr
    obtain ⟨_, ⟨f, _, rfl⟩, hrf⟩ := hr
    exact mem_processFile f r hrf

/-- Claim C10 witness: globals and `source_file` at concrete inputs. -/
theorem C10_witness :
    List.lookup "sender_code" recBare = some (Value.str "") ∧
    (∃ r0 n, recBare ++ [("source_file", Value.str "records.xml")] =
      r0 ++ [("source_file", Value.str n)]) := by
  constructor
  · have := (C10_theorem.1 docBare gdEmpty rfl recBare (by decide)).1
    exact this.trans (by rfl)
  · exact C10_theorem.2 [fileXmlBare]
      (recBare ++ [("source_file", Value.str "records.xml")]) (by decide)

/-! ### Claim C4 -/

/-- Claim C4 as stated is false: the archive `zipGoodBad` fails (its second
entry cannot be decoded, and a diagnostic is recorded for it), yet the
source contributes one record — the one extracted from the entry processed
before the failure — not zero. -/
theorem C4_counterexample :
    (process_uploaded_files [zipGoodBad]).1.length = 1 ∧
    (process_uploaded_files [zipGoodBad]).2 =
      [fileErrorMsg "batch.zip" "UnicodeDecodeError"] := by
  exact ⟨rfl, rfl⟩

/-- Claim C4 (amended): the aggregator treats sources independently — its
output is the concatenation of each source's own contribution, so one
source's failure never affects the others; a plain source that fails to
open or decode, an archive that fails to open, and a plain source whose
document fails to parse each contribute zero records and one diagnostic;
but an archive failing at a later entry keeps the records of the entries
already processed (with a diagnostic), rather than contributing zero. -/
theorem C4_theorem :
    (∀ files, process_uploaded_files files =
      ((files.map (fun f => (processFile f).1)).flatten,
       (files.map (fun f => (processFile f).2)).flatten)) ∧
    (∀ f m, pyEndsWith f.name ".zip" = false → f.asText = Except.error m →
      processFile f = ([], [fileErrorMsg f.name m])) ∧
    (∀ f m, pyEndsWith f.name ".zip" = true → f.asZip = Except.error m →
      processFile f = ([], [fileErrorMsg f.name m])) ∧
    (∀ f msg, pyEndsWith f.name ".zip" = false →
      f.asText = Except.ok (.parseError msg) →
      processFile f = ([], [parseErrorMsg msg])) := by
  refine ⟨process_uploaded_files_eq, ?_, ?_, ?_⟩
  · intro f m hz ht
    unfold processFile
    rw [if_neg (by simp [hz])]
    simp only [ht]
  · intro f m hz hzip
    unfold processFile
    rw [if_pos (by simp [hz])]
    simp only [hzip]
  · intro f msg hz ht
    unfold processFile
    rw [if_neg (by simp [hz])]
    simp only [ht]
    rfl

/-- Claim C4 witness: the three failure shapes at concrete sources. -/
theorem C4_witness :
    processFile fileBadText =
      ([], [fileErrorMsg "broken.xml" "UnicodeDecodeError"]) ∧
    processFile fileBadZip = ([], [fileErrorMsg "broken.zip" "BadZipFile"]) ∧
    processFile fileMalformed = ([], [parseErrorMsg "syntax error"]) ∧
    process_uploaded_files [] = ([], []) := by
  refine ⟨C4_theorem.2.1 fileBadText "UnicodeDecodeError" (by rfl) rfl,
    C4_theorem.2.2.1 fileBadZip "BadZipFile" (by rfl) rfl,
    C4_theorem.2.2.2 fileMalformed "syntax error" (by rfl) rfl,
    (C4_theorem.1 []).trans (by rfl)⟩

/-! ### Claim C6 -/

/-- When every `.xml` entry decodes, the entry loop visits each of them in
order and no exception is left pending. -/
theorem processZipEntries_all_ok (entries : List ZipEntry)
    (h : ∀ e ∈ entries, pyEndsWith e.name ".xml" = true →
      e.content.isOk = true) :
    processZipEntries entries =
      (((entries.filter (fun e => pyEndsWith e.name ".xml")).map
          entryRecords).flatten,
       ((entries.filter (fun e => pyEndsWith e.name ".xml")).map
          entryDiags).flatten,
       Option.none) := by
  induction entries with
  | nil => rfl
  | cons e t ih =>
    have htail : ∀ e' ∈ t, pyEndsWith e'.name ".xml" = true →
        e'.content.isOk = true :=
      fun e' he' => h e' (List.mem_cons_of_mem _ he')
    rw [processZipEntries]
    cases hx : pyEndsWith e.name ".xml" with
    | false =>
      rw [if_neg (by simp [hx])]
      rw [ih htail]
      simp [hx]
    | true =>
      rw [if_pos (by simp [hx])]
      obtain ⟨inp, hc⟩ : ∃ inp, e.content = Except.ok inp := by
        have hok := h e (List.mem_cons_self _ _) hx
        cases hec : e.content with
        | error m => rw [hec] at hok; exact Bool.noConfusion hok
        | ok inp => exact ⟨inp, rfl⟩
      simp only [hc]
      cases hp : parse_building_record_xml inp with
      | raised m =>
        have hr := parse_eq_returned inp
        rw [hp] at hr
        exact ExtractOutcome.noConfusion hr
      | returned recs ds =>
        simp [hx, entryRecords, entryDiags, hc, hp, ih htail,
          ExtractOutcome.records, ExtractOutcome.diags]

/-- Claim C6 as stated is false: in `zipBadGood` the `.xml` entry
`good.xml` (which alone would contribute one record) is never processed,
because the failure at the earlier entry `bad.xml` aborts the remaining
entries; the archive yields no records at all. -/
theorem C6_counterexample :
    (process_uploaded_files [zipBadGood]).1 = [] ∧
    (parse_building_record_xml (.ok docBare)).records.length = 1 := by
  exact ⟨rfl, rfl⟩

/-- Claim C6 (amended): for a source named `.zip` that opens as an archive
all of whose `.xml` entries decode, every `.xml` entry is processed in
archive order, each record tagged (as the trailing `source_file` entry)
with the entry's own name; entries after a failing entry are skipped; a
non-zip source's records are tagged with the source's own name. -/
theorem C6_theorem :
    (∀ f entries, pyEndsWith f.name ".zip" = true →
      f.asZip = Except.ok entries →
      (∀ e ∈ entries, pyEndsWith e.name ".xml" = true →
        e.content.isOk = true) →
      processFile f =
        (((entries.filter (fun e => pyEndsWith e.name ".xml")).map
            entryRecords).flatten,
         ((entries.filter (fun e => pyEndsWith e.name ".xml")).map
            entryDiags).flatten)) ∧
    (∀ f input, pyEndsWith f.name ".zip" = false →
      f.asText = Except.ok input →
      processFile f =
        (tagRecords (parse_building_record_xml input).records f.name,
         (parse_building_record_xml input).diags)) ∧
    (∀ recs n r, r ∈ tagRecords recs n →
      ∃ r0, r = r0 ++ [("source_file", Value.str n)]) := by
  refine ⟨?_, ?_, mem_tagRecords⟩
  · intro f entries hz hzip hok
    unfold processFile
    rw [if_pos (by simp [hz])]
    simp only [hzip, processZipEntries_all_ok entries hok]
  · intro f input hz ht
    unfold processFile
    rw [if_neg (by simp [hz])]
    simp only [ht]
    cases hp : parse_building_record_xml input with
    | raised m =>
      have hr := parse_eq_returned input
      rw [hp] at hr
      exact ExtractOutcome.noConfusion hr
    | returned recs ds =>
      simp [hp, ExtractOutcome.records, ExtractOutcome.diags]

/-- Claim C6 witness: entry-name tagging and order at concrete archives. -/
theorem C6_witness :
    processFile zipAllGood =
      ([recBare ++ [("source_file", Value.str "a.xml")],
        recBare ++ [("source_file", Value.str "b.xml")]], []) ∧
    processFile fileXmlBare =
      ([recBare ++ [("source_file", Value.str "records.xml")]], []) := by
  refine ⟨?_, ?_⟩
  · exact (C6_theorem.1 zipAllGood [entryGood "a.xml", entryGood "b.xml"]
      (by rfl) rfl (by decide)).trans (by rfl)
  · exact (C6_theorem.2.1 fileXmlBare (.ok docBare) (by rfl) rfl).trans
      (by rfl)
